import Mathlib

/-!
Verification development for the gst-srt plugin (GStreamer SRT elements).

The C sources are shallowly embedded as pure Lean functions over explicit
state.  External transport-library calls (libsrt) and GLib calls are
modelled by environment records that supply their outcomes; the control
flow, counters and resource bookkeeping of the C functions themselves are
translated faithfully.
-/

namespace GstSrt

/-! ## Shared constants (from the C sources) -/

/-- `SRT_INVALID_SOCK` (libsrt): value `-1`. -/
def SRT_INVALID_SOCK : Int := -1

/-- `SRT_ERROR` (libsrt): value `-1`. -/
def SRT_ERROR : Int := -1

/-! ## Base source property setter (gstsrtbasesrc.c)

`gst_srt_base_src_set_property`, case `PROP_KEY_LENGTH`:

```
gint key_length = g_value_get_int (value);
g_return_if_fail (key_length == 16 || key_length == 24 || key_length == 32);
self->key_length = key_length;
```

`g_return_if_fail` returns from the setter (leaving the object untouched)
when the condition is false.
-/

/-- The fields of `GstSRTBaseSrc` relevant to the key-length property. -/
structure BaseSrcState where
  key_length : Int
  deriving DecidableEq, Repr

/-- `gst_srt_base_src_set_property` restricted to the `PROP_KEY_LENGTH`
case. -/
def gst_srt_base_src_set_property_key_length (self : BaseSrcState)
    (key_length : Int) : BaseSrcState :=
  if key_length = 16 ∨ key_length = 24 ∨ key_length = 32 then
    { self with key_length := key_length }
  else
    self

/-! ## Client receiver fill (gstsrtclientsrc.c)

`gst_srt_client_src_fill` maps the output buffer, performs one
`srt_recvmsg2` call, and classifies the result:

```
recv_len = srt_recvmsg2 (priv->sock, info.data, size, &ctrl);
if (recv_len == SRT_ERROR) { ... ret = GST_FLOW_ERROR; goto out; }
else if (recv_len == 0)    { ... ret = GST_FLOW_EOS; goto out; }
if (priv->last_msg_num != 0 && (ctrl.msgno - priv->last_msg_num) > 1)
  GST_WARNING (..., (ctrl.msgno - priv->last_msg_num - 1), ...);
priv->last_msg_num = ctrl.msgno;
...
gst_buffer_resize (outbuf, 0, recv_len);
meta->src_time = ctrl.srctime;
```
-/

/-- `GstFlowReturn` values produced by the fill paths. -/
inductive GstFlowReturn where
  | ok
  | eos
  | error
  deriving DecidableEq, Repr

/-- Environment of one `gst_srt_client_src_fill` invocation: the outcome of
`gst_buffer_map`, the result of the `srt_recvmsg2` call (`none` encodes
`SRT_ERROR`, `some n` a received length `n ≥ 0`), and the `SRT_MSGCTRL`
fields the function reads. -/
structure FillEnv where
  map_ok : Bool
  recv : Option Nat
  msgno : Int
  srctime : Nat

/-- The private state `gst_srt_client_src_fill` updates. -/
structure FillState where
  last_msg_num : Int
  deriving DecidableEq, Repr

/-- Observable outcome of one fill invocation. -/
structure FillResult where
  ret : GstFlowReturn
  state : FillState
  buf_len : Option Nat
  drops_reported : List Int
  meta_src_time : Option Nat
  deriving DecidableEq, Repr

/-- Shallow embedding of `gst_srt_client_src_fill`. -/
def gst_srt_client_src_fill (priv : FillState) (env : FillEnv) : FillResult :=
  if !env.map_ok then
    ⟨.error, priv, none, [], none⟩
  else
    match env.recv with
    | none => ⟨.error, priv, none, [], none⟩
    | some 0 => ⟨.eos, priv, none, [], none⟩
    | some (n + 1) =>
        let drops :=
          if priv.last_msg_num ≠ 0 ∧ env.msgno - priv.last_msg_num > 1 then
            [env.msgno - priv.last_msg_num - 1]
          else []
        ⟨.ok, ⟨env.msgno⟩, some (n + 1), drops, some env.srctime⟩

/-- Run a sequence of fill invocations (all with a successful map and a
fixed received length of 1316 bytes), observing the given message sequence
numbers, and collect all gap diagnostics together with the final state. -/
def runFills (priv : FillState) : List Int → List Int × FillState
  | [] => ([], priv)
  | m :: ms =>
      let r := gst_srt_client_src_fill priv ⟨true, some 1316, m, 0⟩
      let (ds, s) := runFills r.state ms
      (r.drops_reported ++ ds, s)

/-! ## Connect helper (gstsrt.c, `gst_srt_client_connect_full`)

The function resolves the host, creates an epoll (multiplexer) and a
socket, applies socket options, optionally binds, connects, verifies the
connected state and registers the socket; every failure jumps to a common
`failed:` block that releases the epoll (if its id is not `SRT_ERROR`),
closes the socket (if not `SRT_INVALID_SOCK`), clears the out socket
address and returns `SRT_INVALID_SOCK`.
-/

/-- One `srt_setsockopt` / `srt_setsockflag` assignment, by option name. -/
inductive SockOpt where
  | sndsyn (v : Int)
  | tsbpdmode (v : Int)
  | linger (v : Int)
  | sender (v : Int)
  | peerlatency (v : Int)
  | rcvlatency (v : Int)
  | rendezvous (v : Int)
  | passphrase (s : String)
  | pbkeylen (v : Int)
  deriving DecidableEq, Repr

/-- Whether an option assignment sets `SRTO_SNDSYN` (non-blocking send
mode). -/
def SockOpt.isSndSyn : SockOpt → Bool
  | .sndsyn _ => true
  | _ => false

/-- Arguments of `gst_srt_client_connect_full`.  A `none` host or
bind_address models a NULL pointer; a `none` passphrase models a NULL
passphrase. -/
structure ConnectArgs where
  is_sender : Bool
  host : Option String
  port : Nat
  rendezvous : Bool
  bind_address : Option String
  bind_port : Nat
  latency : Int
  passphrase : Option String
  key_length : Int

/-- Outcomes of the external calls made by `gst_srt_client_connect_full`,
in program order.  `epoll_ret` and `socket_ret` carry the raw return values
(`-1` signals failure for both, matching `srt_epoll_create` and
`srt_socket`). -/
structure ConnectEnv where
  parse_addr_ok : Bool
  epoll_ret : Int
  resolve_ok : Bool
  socket_ret : Int
  bind_parse_ok : Bool
  bind_resolve_ok : Bool
  bind_ok : Bool
  connect_ok : Bool
  sockstate_connected : Bool

/-- Observable outcome of `gst_srt_client_connect_full`: the returned
socket value, the final value of the `poll_id` out parameter, whether the
`socket_address` out parameter was left pointing at a live object, the
option assignments applied, and the resource events (created / released
epolls, created / closed sockets). -/
structure ConnectResult where
  sock : Int
  poll_id : Int
  sockaddr_valid : Bool
  options : List SockOpt
  epolls_created : List Int
  epolls_released : List Int
  socks_created : List Int
  socks_closed : List Int
  epoll_registered : Bool
  deriving DecidableEq, Repr

/-- The `failed:` block of `gst_srt_client_connect_full`. -/
def connectFailed (poll_id sock : Int) (options : List SockOpt)
    (ecr scr : List Int) : ConnectResult :=
  { sock := SRT_INVALID_SOCK
    poll_id := SRT_ERROR
    sockaddr_valid := false
    options := options
    epolls_created := ecr
    epolls_released := if poll_id ≠ SRT_ERROR then [poll_id] else []
    socks_created := scr
    socks_closed := if sock ≠ SRT_INVALID_SOCK then [sock] else []
    epoll_registered := false }

/-- The option assignments `gst_srt_client_connect_full` applies after
creating the socket, in program order. -/
def connectOptions (args : ConnectArgs) : List SockOpt :=
  [SockOpt.tsbpdmode 1,
   SockOpt.linger 0,
   SockOpt.sender (if args.is_sender then 1 else 0),
   if args.is_sender then SockOpt.peerlatency args.latency
   else SockOpt.rcvlatency args.latency,
   SockOpt.rendezvous (if args.rendezvous then 1 else 0)] ++
  (match args.passphrase with
   | some p => if p ≠ "" then [SockOpt.passphrase p, SockOpt.pbkeylen args.key_length] else []
   | none => [])

/-- The `if (bind_address || bind_port || rendezvous)` guard of the bind
block. -/
def connectBindWanted (args : ConnectArgs) : Bool :=
  args.bind_address.isSome || args.bind_port != 0 || args.rendezvous

/-- The part of `gst_srt_client_connect_full` from `srt_connect` onwards. -/
def connectAfterBind (args : ConnectArgs) (env : ConnectEnv)
    (poll sock : Int) : ConnectResult :=
  if env.connect_ok then
    if env.sockstate_connected then
      { sock := sock
        poll_id := poll
        sockaddr_valid := true
        options := connectOptions args
        epolls_created := [poll]
        epolls_released := []
        socks_created := [sock]
        socks_closed := []
        epoll_registered := true }
    else
      connectFailed poll sock (connectOptions args) [poll] [sock]
  else
    connectFailed poll sock (connectOptions args) [poll] [sock]

/-- The part of `gst_srt_client_connect_full` from the optional bind block
onwards (the socket and epoll exist and options have been applied). -/
def connectFromBind (args : ConnectArgs) (env : ConnectEnv)
    (poll sock : Int) : ConnectResult :=
  if connectBindWanted args then
    if env.bind_parse_ok then
      if env.bind_resolve_ok then
        if env.bind_ok then
          connectAfterBind args env poll sock
        else
          connectFailed poll sock (connectOptions args) [poll] [sock]
      else
        connectFailed poll sock (connectOptions args) [poll] [sock]
    else
      connectFailed poll sock (connectOptions args) [poll] [sock]
  else
    connectAfterBind args env poll sock

/-- Shallow embedding of `gst_srt_client_connect_full`.  `init_poll_id` is
the value of the caller's `poll_id` variable on entry (the `failed:` block
reads it before the epoll is created). -/
def gst_srt_client_connect_full (args : ConnectArgs) (env : ConnectEnv)
    (init_poll_id : Int) : ConnectResult :=
  if args.host.isNone then
    connectFailed init_poll_id SRT_INVALID_SOCK [] [] []
  else if ¬env.parse_addr_ok then
    connectFailed init_poll_id SRT_INVALID_SOCK [] [] []
  else if env.epoll_ret = -1 then
    connectFailed env.epoll_ret SRT_INVALID_SOCK [] [] []
  else if ¬env.resolve_ok then
    connectFailed env.epoll_ret SRT_INVALID_SOCK [] [env.epoll_ret] []
  else if env.socket_ret = SRT_ERROR then
    connectFailed env.epoll_ret env.socket_ret [] [env.epoll_ret] []
  else
    connectFromBind args env env.epoll_ret env.socket_ret

/-- The success condition of `gst_srt_client_connect_full`: no external
call on the executed path fails. -/
def connectSucceeds (args : ConnectArgs) (env : ConnectEnv) : Bool :=
  args.host.isSome && env.parse_addr_ok && (env.epoll_ret != -1) &&
    env.resolve_ok && (env.socket_ret != -1) &&
    (!connectBindWanted args ||
      (env.bind_parse_ok && env.bind_resolve_ok && env.bind_ok)) &&
    env.connect_ok && env.sockstate_connected

/-- Whether execution reaches `srt_epoll_create` and it succeeds. -/
def connectReachedEpoll (args : ConnectArgs) (env : ConnectEnv) : Bool :=
  args.host.isSome && env.parse_addr_ok && (env.epoll_ret != -1)

/-- Whether execution reaches `srt_socket` and it succeeds (and hence the
option assignments are applied). -/
def connectReachedSock (args : ConnectArgs) (env : ConnectEnv) : Bool :=
  connectReachedEpoll args env && env.resolve_ok && (env.socket_ret != -1)

/-! ## Server sink (gstsrtserversink.c)

The server sink keeps a live client list (`priv->clients`, guarded by the
object lock) and a pending queue (`priv->pending_clients`, a `GAsyncQueue`
fed by the accept thread).  `gst_srt_server_sink_send_buffer` walks the
live list applying the backpressure check and the send, then drains the
pending queue, bootstrapping each new client.  Client records are
identified here by a unique id `cid` standing for the (socket, peer
address) pair carried by the C `SRTClient` record.
-/

/-- `SRT_SEND_BUFFER_SIZE` (gstsrtserversink.c): recommended send-buffer
size in bytes. -/
def SRT_SEND_BUFFER_SIZE : Int := 1024 * 1024

/-- `MAX_SEND_FAILS` (gstsrtserversink.c): "How many times a send fails in
a row before we disconnect a client". -/
def MAX_SEND_FAILS : Nat := 10

/-- `default_msg_size` in `can_client_recv` (1316, for mpegts). -/
def default_msg_size : Int := 1316

/-- `can_client_recv`: the backpressure check.  `num_bytes_unacknowledged`
is the `SRTO_SNDDATA` value reported by the transport for the client's
socket. -/
def can_client_recv (num_bytes_unacknowledged : Int) : Bool :=
  num_bytes_unacknowledged + default_msg_size < SRT_SEND_BUFFER_SIZE

/-- The C `SRTClient` record; `cid` stands for the identity of the record
(its socket handle and peer address). -/
structure SRTClient where
  cid : Nat
  num_send_fails : Nat
  deriving DecidableEq, Repr

/-- Observable events of the server sink: the `client-added` /
`client-removed` signals, the socket close inside `srt_client_free`, the
header bootstrap send, and the `srt_sendmsg2` call of
`send_buffer_internal`. -/
inductive Ev where
  | added (cid : Nat)
  | removed (cid : Nat)
  | sockClosed (cid : Nat)
  | headerAttempt (cid : Nat)
  | sendAttempt (cid : Nat)
  deriving DecidableEq, Repr

/-- Transport-library outcomes for one delivery cycle, per client record:
the unacknowledged-byte count reported by `SRTO_SNDDATA`, the outcome of
`send_buffer_internal` for the current outbound unit, and the outcome of
`gst_srt_base_sink_send_headers` (whose body is not part of this tree; only
its boolean outcome is observed by the server sink, so it is supplied by
the environment). -/
structure CycleEnv where
  unack : Nat → Int
  sendOk : Nat → Bool
  headerOk : Nat → Bool

/-- One iteration of the live-list loop of
`gst_srt_server_sink_send_buffer` for client `c`: the backpressure check,
the failure counter, the threshold eviction, and the send with its
immediate eviction on failure.  Returns the surviving record (if any) and
the events emitted. -/
def processLiveClient (env : CycleEnv) (c : SRTClient) :
    Option SRTClient × List Ev :=
  if !can_client_recv (env.unack c.cid) then
    let c' : SRTClient := { c with num_send_fails := c.num_send_fails + 1 }
    if MAX_SEND_FAILS ≤ c'.num_send_fails then
      (none, [Ev.removed c.cid, Ev.sockClosed c.cid])
    else if env.sendOk c.cid then
      (some c', [Ev.sendAttempt c.cid])
    else
      (none, [Ev.sendAttempt c.cid, Ev.removed c.cid, Ev.sockClosed c.cid])
  else if env.sendOk c.cid then
    (some c, [Ev.sendAttempt c.cid])
  else
    (none, [Ev.sendAttempt c.cid, Ev.removed c.cid, Ev.sockClosed c.cid])

/-- The live-list loop of `gst_srt_server_sink_send_buffer`: each client is
processed in order; evicted clients are removed from the list. -/
def processLive (env : CycleEnv) : List SRTClient → List SRTClient × List Ev
  | [] => ([], [])
  | c :: rest =>
      let r := processLiveClient env c
      let rr := processLive env rest
      (match r.1 with
       | some c' => c' :: rr.1
       | none => rr.1, r.2 ++ rr.2)

/-- Processing of one client popped from the pending queue: header
bootstrap send, then the current outbound unit; either failure discards the
record (`goto err`), success lets the caller prepend it to the live
list. -/
def processPendingClient (env : CycleEnv) (c : SRTClient) :
    Option SRTClient × List Ev :=
  if !env.headerOk c.cid then
    (none, [Ev.headerAttempt c.cid, Ev.removed c.cid, Ev.sockClosed c.cid])
  else if !env.sendOk c.cid then
    (none, [Ev.headerAttempt c.cid, Ev.sendAttempt c.cid, Ev.removed c.cid,
            Ev.sockClosed c.cid])
  else
    (some c, [Ev.headerAttempt c.cid, Ev.sendAttempt c.cid])

/-- The pending-queue drain loop of `gst_srt_server_sink_send_buffer`:
`g_async_queue_try_pop` until empty; successfully bootstrapped clients are
prepended (`g_list_prepend`) to the live list. -/
def drainPending (env : CycleEnv) (live : List SRTClient) :
    List SRTClient → List SRTClient × List Ev
  | [] => (live, [])
  | c :: rest =>
      match processPendingClient env c with
      | (some c', evs) =>
          let r := drainPending env (c' :: live) rest
          (r.1, evs ++ r.2)
      | (none, evs) =>
          let r := drainPending env live rest
          (r.1, evs ++ r.2)

/-- Result of one `gst_srt_server_sink_send_buffer` call: the new live
list, the emitted events, and the returned boolean. -/
structure CycleResult where
  live : List SRTClient
  events : List Ev
  ret : Bool
  deriving Repr

/-- Shallow embedding of `gst_srt_server_sink_send_buffer` (the pending
queue is emptied by the drain loop; the function always returns TRUE). -/
def gst_srt_server_sink_send_buffer (env : CycleEnv)
    (live pending : List SRTClient) : CycleResult :=
  let r1 := processLive env live
  let r2 := drainPending env r1.1 pending
  ⟨r2.1, r1.2 ++ r2.2, true⟩

/-! ### Registry state machine

The steps below are the registry-mutating actions of the server sink: the
accept thread's successful accept (`thread_func`), one delivery cycle
(`gst_srt_server_sink_send_buffer`), and shutdown
(`gst_srt_server_sink_stop`).
-/

/-- Registry-relevant state of a server sink instance. -/
structure ServerState where
  cancelled : Bool
  live : List SRTClient
  pending : List SRTClient
  events : List Ev
  nextCid : Nat
  deriving Repr

/-- The state after `gst_srt_server_sink_start`: empty registry, fresh
pending queue. -/
def serverInit : ServerState :=
  ⟨false, [], [], [], 0⟩

/-- The events `gst_srt_server_sink_stop` emits: a `client-removed` per
live client (`g_list_foreach`), then their closes (`g_list_free_full`),
then removal and close per pending client (the manual pop loop). -/
def stopEvents (live pending : List SRTClient) : List Ev :=
  live.map (fun c => Ev.removed c.cid) ++
  live.map (fun c => Ev.sockClosed c.cid) ++
  pending.flatMap (fun c => [Ev.removed c.cid, Ev.sockClosed c.cid])

/-- One delivery cycle applied to a server state. -/
def deliverStep (env : CycleEnv) (s : ServerState) : ServerState :=
  let r := gst_srt_server_sink_send_buffer env s.live s.pending
  { s with live := r.live, pending := [], events := s.events ++ r.events }

/-- A successful accept iteration applied to a server state: emit
`client-added`, push the fresh record to the pending queue. -/
def acceptStep (s : ServerState) : ServerState :=
  { s with
      pending := s.pending ++ [⟨s.nextCid, 0⟩]
      events := s.events ++ [Ev.added s.nextCid]
      nextCid := s.nextCid + 1 }

/-- `gst_srt_server_sink_stop` applied to a server state. -/
def stopStep (s : ServerState) : ServerState :=
  { s with
      cancelled := true
      live := []
      pending := []
      events := s.events ++ stopEvents s.live s.pending }

/-- The registry transition relation: accepts and delivery cycles happen
while the element runs, `stop` tears it down. -/
inductive ServerStep : ServerState → ServerState → Prop where
  | accept (s : ServerState) (h : s.cancelled = false) :
      ServerStep s (acceptStep s)
  | deliver (env : CycleEnv) (s : ServerState) (h : s.cancelled = false) :
      ServerStep s (deliverStep env s)
  | stop (s : ServerState) (h : s.cancelled = false) :
      ServerStep s (stopStep s)

/-- States reachable from the started server. -/
inductive ServerReachable : ServerState → Prop where
  | init : ServerReachable serverInit
  | step {s s' : ServerState} (hr : ServerReachable s) (h : ServerStep s s') :
      ServerReachable s'

/-- Number of occurrences of `cid` in a client list. -/
def countCid (l : List SRTClient) (x : Nat) : Nat :=
  (l.map SRTClient.cid).count x

/-- Number of occurrences of `cid` across the live list and the pending
queue of a server state. -/
def regCount (s : ServerState) (x : Nat) : Nat :=
  countCid s.live x + countCid s.pending x

/-- Number of `client-added` events for `cid`. -/
def addedCount (evs : List Ev) (x : Nat) : Nat :=
  evs.count (Ev.added x)

/-- Number of `client-removed` events for `cid`. -/
def removedCount (evs : List Ev) (x : Nat) : Nat :=
  evs.count (Ev.removed x)

/-- The registry invariant: each client id occurs at most once across the
live list and pending queue together, every id in the registry has exactly
one `client-added` and no `client-removed` event, every id that has left
the registry has exactly as many `client-removed` as `client-added`
events, and ids not yet handed out are unused. -/
def ServerInv (s : ServerState) : Prop :=
  (∀ x, regCount s x ≤ 1) ∧
  (∀ x, addedCount s.events x ≤ 1) ∧
  (∀ x, addedCount s.events x = regCount s x + removedCount s.events x) ∧
  (∀ x, s.nextCid ≤ x → addedCount s.events x = 0 ∧ regCount s x = 0)

/-- Whether a live client survives its loop iteration. -/
def keepLive (env : CycleEnv) (c : SRTClient) : Bool :=
  (processLiveClient env c).1.isSome

/-- Whether a pending client is promoted to the live list. -/
def keepPending (env : CycleEnv) (c : SRTClient) : Bool :=
  env.headerOk c.cid && env.sendOk c.cid

/-! ### Accept loop (`thread_func`, gstsrtserversink.c)

```
while (!priv->cancelled) {
  if (srt_epoll_wait (...) == -1) {
    int srt_errno = srt_getlasterror (NULL);
    if (srt_errno != SRT_ETIMEOUT) { GST_ELEMENT_ERROR (...); continue; }
    if (srt_errno == SRT_ETIMEOUT && priv->cancelled) { ...; continue; }
  }
  client = srt_client_new ();
  client->sock = srt_accept (...);
  if (client->sock == SRT_INVALID_SOCK) { ...; srt_client_free; continue; }
  ...
  g_signal_emit (client-added); g_async_queue_push (pending, client);
}
```
-/

/-- Outcome of the `srt_epoll_wait` call of one accept iteration: success,
failure with `SRT_ETIMEOUT`, or failure with any other error code. -/
inductive WaitOutcome where
  | ready
  | errTimeout
  | errOther
  deriving DecidableEq, Repr

/-- Environment of one accept-loop iteration: the wait outcome, the value
of `priv->cancelled` when the timeout branch re-reads it, and whether
`srt_accept` returns a valid socket. -/
structure AcceptIterEnv where
  wait : WaitOutcome
  cancelled_at_wait : Bool
  accept_ok : Bool

/-- Observable actions of one accept-loop iteration. -/
inductive IterAct where
  | errorReport
  | acceptAttempt
  | clientAdded
  | pushedPending
  deriving DecidableEq, Repr

/-- The accept part of the loop body: `srt_accept` plus, on success, the
`client-added` signal and the pending-queue push. -/
def acceptPart (env : AcceptIterEnv) : List IterAct :=
  if env.accept_ok then
    [IterAct.acceptAttempt, IterAct.clientAdded, IterAct.pushedPending]
  else
    [IterAct.acceptAttempt]

/-- One iteration of the `thread_func` loop body. -/
def thread_iter (env : AcceptIterEnv) : List IterAct :=
  match env.wait with
  | .errOther => [IterAct.errorReport]
  | .errTimeout =>
      if env.cancelled_at_wait then [] else acceptPart env
  | .ready => acceptPart env

/-- The value of `priv->cancelled` at the loop head, paired with the
iteration environment. -/
structure ThreadEnv where
  cancelled : Bool
  iter : AcceptIterEnv

/-- The `thread_func` loop over a (finite) schedule of iteration
environments: the cancellation flag is checked at the loop head and the
thread exits at the first iteration that observes it. -/
def thread_func : List ThreadEnv → List IterAct
  | [] => []
  | e :: rest =>
      if e.cancelled then [] else thread_iter e.iter ++ thread_func rest


/-! ### Concrete delivery-cycle schedules

`envBackpressure` reports `SRT_SEND_BUFFER_SIZE` unacknowledged bytes for
every client (so `can_client_recv` fails), `envClear` reports 0 (so it
succeeds); header and data sends succeed in both. -/

/-- A delivery-cycle environment in which every client fails the
backpressure check. -/
def envBackpressure : CycleEnv :=
  ⟨fun _ => SRT_SEND_BUFFER_SIZE, fun _ => true, fun _ => true⟩

/-- A delivery-cycle environment in which every client passes the
backpressure check. -/
def envClear : CycleEnv :=
  ⟨fun _ => 0, fun _ => true, fun _ => true⟩

/-- Run a schedule of delivery cycles. -/
def runCycles (envs : List CycleEnv) (s : ServerState) : ServerState :=
  envs.foldl (fun t e => deliverStep e t) s

/-- The server state with one freshly bootstrapped live client (id 0):
one accept followed by one clear delivery cycle. -/
def singleClientState : ServerState :=
  deliverStep envClear (acceptStep serverInit)

end GstSrt

/-- C10: for every `key-length` value outside {16, 24, 32} the setter leaves
the previously stored key length unchanged, and for every value in
{16, 24, 32} it stores the new value. -/
theorem c10_key_length_setter (s : GstSrt.BaseSrcState) (v : Int) :
    (GstSrt.gst_srt_base_src_set_property_key_length s v).key_length =
      if v = 16 ∨ v = 24 ∨ v = 32 then v else s.key_length := by
  unfold GstSrt.gst_srt_base_src_set_property_key_length
  split <;> rfl

/-- C8: in a fill invocation whose buffer map succeeds, a zero-length
receive yields end-of-stream, a receive error yields a read failure, and
any positive received length fills the buffer with that many bytes and
succeeds. -/
theorem c8_fill_classification (priv : GstSrt.FillState) (env : GstSrt.FillEnv)
    (hmap : env.map_ok = true) :
    (env.recv = none → (GstSrt.gst_srt_client_src_fill priv env).ret = .error) ∧
    (env.recv = some 0 → (GstSrt.gst_srt_client_src_fill priv env).ret = .eos) ∧
    (∀ n, env.recv = some (n + 1) →
      (GstSrt.gst_srt_client_src_fill priv env).ret = .ok ∧
      (GstSrt.gst_srt_client_src_fill priv env).buf_len = some (n + 1)) := by
  refine ⟨fun h => ?_, fun h => ?_, fun n h => ?_⟩ <;>
    simp [GstSrt.gst_srt_client_src_fill, hmap, h]

/-- C8 witness: concrete instances of the three receive outcomes. -/
theorem c8_fill_classification_witness :
    (GstSrt.gst_srt_client_src_fill ⟨0⟩ ⟨true, none, 3, 7⟩).ret = .error ∧
    (GstSrt.gst_srt_client_src_fill ⟨0⟩ ⟨true, some 0, 3, 7⟩).ret = .eos ∧
    (GstSrt.gst_srt_client_src_fill ⟨0⟩ ⟨true, some 5, 3, 7⟩).ret = .ok ∧
    (GstSrt.gst_srt_client_src_fill ⟨0⟩ ⟨true, some 5, 3, 7⟩).buf_len = some 5 :=
  ⟨(c8_fill_classification ⟨0⟩ ⟨true, none, 3, 7⟩ rfl).1 rfl,
   (c8_fill_classification ⟨0⟩ ⟨true, some 0, 3, 7⟩ rfl).2.1 rfl,
   ((c8_fill_classification ⟨0⟩ ⟨true, some 5, 3, 7⟩ rfl).2.2 4 rfl).1,
   ((c8_fill_classification ⟨0⟩ ⟨true, some 5, 3, 7⟩ rfl).2.2 4 rfl).2⟩

/-- C9: observing message sequence numbers 5, 6, 9 on successive fills fires
the gap diagnostic exactly once, reporting 2 dropped messages, and leaves
the last-observed sequence number at 9; in general, a successful receive
fires the diagnostic exactly when the new sequence number exceeds the
non-zero last-observed one by more than 1, reporting the difference minus
one, and always updates the last-observed number. -/
theorem c9_sequence_gap :
    GstSrt.runFills ⟨0⟩ [5, 6, 9] = ([2], ⟨9⟩) ∧
    (∀ (priv : GstSrt.FillState) (env : GstSrt.FillEnv) (n : Nat),
      env.map_ok = true → env.recv = some (n + 1) →
      (GstSrt.gst_srt_client_src_fill priv env).drops_reported =
        (if priv.last_msg_num ≠ 0 ∧ env.msgno - priv.last_msg_num > 1 then
          [env.msgno - priv.last_msg_num - 1] else []) ∧
      (GstSrt.gst_srt_client_src_fill priv env).state.last_msg_num =
        env.msgno) := by
  refine ⟨by decide, fun priv env n hmap hrecv => ?_⟩
  simp [GstSrt.gst_srt_client_src_fill, hmap, hrecv]

/-- Characterization of `gst_srt_client_connect_full` with the caller's
`poll_id` at `SRT_ERROR` on entry: on success the created epoll and socket
are returned unreleased; on any failure the function returns
`SRT_INVALID_SOCK`, clears the out parameters, and releases / closes
exactly the handles whose creation it had reached. -/
theorem connect_full_characterization (args : GstSrt.ConnectArgs)
    (env : GstSrt.ConnectEnv) :
    GstSrt.gst_srt_client_connect_full args env GstSrt.SRT_ERROR =
      (if GstSrt.connectSucceeds args env then
        ⟨env.socket_ret, env.epoll_ret, true, GstSrt.connectOptions args,
         [env.epoll_ret], [], [env.socket_ret], [], true⟩
      else
        ⟨GstSrt.SRT_INVALID_SOCK, GstSrt.SRT_ERROR, false,
         (if GstSrt.connectReachedSock args env then GstSrt.connectOptions args
          else []),
         (if GstSrt.connectReachedEpoll args env then [env.epoll_ret] else []),
         (if GstSrt.connectReachedEpoll args env then [env.epoll_ret] else []),
         (if GstSrt.connectReachedSock args env then [env.socket_ret] else []),
         (if GstSrt.connectReachedSock args env then [env.socket_ret] else []),
         false⟩) := by
  by_cases h1 : args.host.isSome = true
  case neg =>
    have h1n : args.host.isNone = true := by cases h : args.host <;> simp_all
    simp [GstSrt.gst_srt_client_connect_full, GstSrt.connectFailed,
      GstSrt.connectSucceeds, GstSrt.connectReachedSock,
      GstSrt.connectReachedEpoll, GstSrt.SRT_ERROR, GstSrt.SRT_INVALID_SOCK,
      h1, h1n]
  case pos =>
  have h1n : args.host.isNone = false := by cases h : args.host <;> simp_all
  by_cases h2 : env.parse_addr_ok = true
  case neg =>
    simp [GstSrt.gst_srt_client_connect_full, GstSrt.connectFailed,
      GstSrt.connectSucceeds, GstSrt.connectReachedSock,
      GstSrt.connectReachedEpoll, GstSrt.SRT_ERROR, GstSrt.SRT_INVALID_SOCK,
      h1, h1n, h2]
  case pos =>
  by_cases h3 : env.epoll_ret = -1
  case pos =>
    simp [GstSrt.gst_srt_client_connect_full, GstSrt.connectFailed,
      GstSrt.connectSucceeds, GstSrt.connectReachedSock,
      GstSrt.connectReachedEpoll, GstSrt.SRT_ERROR, GstSrt.SRT_INVALID_SOCK,
      h1, h1n, h2, h3]
  case neg =>
  by_cases h4 : env.resolve_ok = true
  case neg =>
    simp [GstSrt.gst_srt_client_connect_full, GstSrt.connectFailed,
      GstSrt.connectSucceeds, GstSrt.connectReachedSock,
      GstSrt.connectReachedEpoll, GstSrt.SRT_ERROR, GstSrt.SRT_INVALID_SOCK,
      bne_iff_ne, h1, h1n, h2, h3, h4]
  case pos =>
  by_cases h5 : env.socket_ret = -1
  case pos =>
    simp [GstSrt.gst_srt_client_connect_full, GstSrt.connectFailed,
      GstSrt.connectSucceeds, GstSrt.connectReachedSock,
      GstSrt.connectReachedEpoll, GstSrt.SRT_ERROR, GstSrt.SRT_INVALID_SOCK,
      bne_iff_ne, h1, h1n, h2, h3, h4, h5]
  case neg =>
  by_cases hb : GstSrt.connectBindWanted args = true
  case pos =>
    by_cases h6 : env.bind_parse_ok = true
    case neg =>
      simp [GstSrt.gst_srt_client_connect_full, GstSrt.connectFromBind,
        GstSrt.connectFailed, GstSrt.connectSucceeds,
        GstSrt.connectReachedSock, GstSrt.connectReachedEpoll,
        GstSrt.SRT_ERROR, GstSrt.SRT_INVALID_SOCK, bne_iff_ne,
        h1, h1n, h2, h3, h4, h5, hb, h6]
    case pos =>
    by_cases h7 : env.bind_resolve_ok = true
    case neg =>
      simp [GstSrt.gst_srt_client_connect_full, GstSrt.connectFromBind,
        GstSrt.connectFailed, GstSrt.connectSucceeds,
        GstSrt.connectReachedSock, GstSrt.connectReachedEpoll,
        GstSrt.SRT_ERROR, GstSrt.SRT_INVALID_SOCK, bne_iff_ne,
        h1, h1n, h2, h3, h4, h5, hb, h6, h7]
    case pos =>
    by_cases h8 : env.bind_ok = true
    case neg =>
      simp [GstSrt.gst_srt_client_connect_full, GstSrt.connectFromBind,
        GstSrt.connectFailed, GstSrt.connectSucceeds,
        GstSrt.connectReachedSock, GstSrt.connectReachedEpoll,
        GstSrt.SRT_ERROR, GstSrt.SRT_INVALID_SOCK, bne_iff_ne,
        h1, h1n, h2, h3, h4, h5, hb, h6, h7, h8]
    case pos =>
    by_cases h9 : env.connect_ok = true
    case neg =>
      simp [GstSrt.gst_srt_client_connect_full, GstSrt.connectFromBind,
        GstSrt.connectAfterBind, GstSrt.connectFailed, GstSrt.connectSucceeds,
        GstSrt.connectReachedSock, GstSrt.connectReachedEpoll,
        GstSrt.SRT_ERROR, GstSrt.SRT_INVALID_SOCK, bne_iff_ne,
        h1, h1n, h2, h3, h4, h5, hb, h6, h7, h8, h9]
    case pos =>
    by_cases h10 : env.sockstate_connected = true <;>
      simp [GstSrt.gst_srt_client_connect_full, GstSrt.connectFromBind,
        GstSrt.connectAfterBind, GstSrt.connectFailed, GstSrt.connectSucceeds,
        GstSrt.connectReachedSock, GstSrt.connectReachedEpoll,
        GstSrt.SRT_ERROR, GstSrt.SRT_INVALID_SOCK, bne_iff_ne,
        h1, h1n, h2, h3, h4, h5, hb, h6, h7, h8, h9, h10]
  case neg =>
    by_cases h9 : env.connect_ok = true
    case neg =>
      simp [GstSrt.gst_srt_client_connect_full, GstSrt.connectFromBind,
        GstSrt.connectAfterBind, GstSrt.connectFailed, GstSrt.connectSucceeds,
        GstSrt.connectReachedSock, GstSrt.connectReachedEpoll,
        GstSrt.SRT_ERROR, GstSrt.SRT_INVALID_SOCK, bne_iff_ne,
        h1, h1n, h2, h3, h4, h5, hb, h9]
    case pos =>
    by_cases h10 : env.sockstate_connected = true <;>
      simp [GstSrt.gst_srt_client_connect_full, GstSrt.connectFromBind,
        GstSrt.connectAfterBind, GstSrt.connectFailed, GstSrt.connectSucceeds,
        GstSrt.connectReachedSock, GstSrt.connectReachedEpoll,
        GstSrt.SRT_ERROR, GstSrt.SRT_INVALID_SOCK, bne_iff_ne,
        h1, h1n, h2, h3, h4, h5, hb, h9, h10]

/-- C4: with the caller's `poll_id` at `SRT_ERROR` on entry (as every
caller in the repository passes it), the connect helper succeeds exactly
when no external call on its path fails; on every failure it returns
`SRT_INVALID_SOCK` with the out parameters cleared and releases exactly the
epoll and closes exactly the socket created before the failure point, each
exactly once; on success it releases and closes nothing. -/
theorem c4_connect_rollback (args : GstSrt.ConnectArgs) (env : GstSrt.ConnectEnv) :
    ((GstSrt.gst_srt_client_connect_full args env GstSrt.SRT_ERROR).sock ≠
        GstSrt.SRT_INVALID_SOCK ↔ GstSrt.connectSucceeds args env = true) ∧
    (GstSrt.connectSucceeds args env = false →
      (GstSrt.gst_srt_client_connect_full args env GstSrt.SRT_ERROR).sock =
        GstSrt.SRT_INVALID_SOCK ∧
      (GstSrt.gst_srt_client_connect_full args env GstSrt.SRT_ERROR).poll_id =
        GstSrt.SRT_ERROR ∧
      (GstSrt.gst_srt_client_connect_full args env GstSrt.SRT_ERROR).sockaddr_valid
        = false ∧
      (GstSrt.gst_srt_client_connect_full args env GstSrt.SRT_ERROR).epolls_released
        = (GstSrt.gst_srt_client_connect_full args env
            GstSrt.SRT_ERROR).epolls_created ∧
      (GstSrt.gst_srt_client_connect_full args env GstSrt.SRT_ERROR).socks_closed
        = (GstSrt.gst_srt_client_connect_full args env
            GstSrt.SRT_ERROR).socks_created) ∧
    (GstSrt.connectSucceeds args env = true →
      (GstSrt.gst_srt_client_connect_full args env GstSrt.SRT_ERROR).epolls_released
        = [] ∧
      (GstSrt.gst_srt_client_connect_full args env GstSrt.SRT_ERROR).socks_closed
        = []) := by
  have hc := connect_full_characterization args env
  by_cases hs : GstSrt.connectSucceeds args env = true
  · have hsock : env.socket_ret ≠ -1 := by
      simp only [GstSrt.connectSucceeds, Bool.and_eq_true, bne_iff_ne, ne_eq]
        at hs
      exact hs.1.1.1.2
    rw [hc, if_pos hs]
    simp [GstSrt.SRT_INVALID_SOCK, hs, hsock]
  · have hs' : GstSrt.connectSucceeds args env = false := by
      simpa using hs
    rw [hc, if_neg (by simp [hs'])]
    simp [GstSrt.SRT_INVALID_SOCK, GstSrt.SRT_ERROR, hs']

/-- C4 witness: a connect failure injected at the connect step, with the
multiplexer and socket already created, rolls back exactly those two
handles. -/
theorem c4_connect_rollback_witness :
    GstSrt.connectSucceeds
        ⟨true, some "127.0.0.1", 7001, false, none, 0, 125, none, 16⟩
        ⟨true, 3, true, 5, true, true, true, false, true⟩ = false ∧
    (GstSrt.gst_srt_client_connect_full
        ⟨true, some "127.0.0.1", 7001, false, none, 0, 125, none, 16⟩
        ⟨true, 3, true, 5, true, true, true, false, true⟩
        GstSrt.SRT_ERROR).sock = GstSrt.SRT_INVALID_SOCK ∧
    (GstSrt.gst_srt_client_connect_full
        ⟨true, some "127.0.0.1", 7001, false, none, 0, 125, none, 16⟩
        ⟨true, 3, true, 5, true, true, true, false, true⟩
        GstSrt.SRT_ERROR).epolls_released =
      (GstSrt.gst_srt_client_connect_full
        ⟨true, some "127.0.0.1", 7001, false, none, 0, 125, none, 16⟩
        ⟨true, 3, true, 5, true, true, true, false, true⟩
        GstSrt.SRT_ERROR).epolls_created ∧
    (GstSrt.gst_srt_client_connect_full
        ⟨true, some "127.0.0.1", 7001, false, none, 0, 125, none, 16⟩
        ⟨true, 3, true, 5, true, true, true, false, true⟩
        GstSrt.SRT_ERROR).socks_closed =
      (GstSrt.gst_srt_client_connect_full
        ⟨true, some "127.0.0.1", 7001, false, none, 0, 125, none, 16⟩
        ⟨true, 3, true, 5, true, true, true, false, true⟩
        GstSrt.SRT_ERROR).socks_created := by
  have h := (c4_connect_rollback
    ⟨true, some "127.0.0.1", 7001, false, none, 0, 125, none, 16⟩
    ⟨true, 3, true, 5, true, true, true, false, true⟩).2.1 rfl
  exact ⟨rfl, h.1, h.2.2.2.1, h.2.2.2.2⟩

/-- C5 counterexample: a fully successful concrete run of the connect
helper applies no non-blocking-send-mode (`SRTO_SNDSYN`) option assignment
at all, so the emitted option list does not include it. -/
theorem c5_option_profile_counterexample :
    ((GstSrt.gst_srt_client_connect_full
        ⟨true, some "127.0.0.1", 7001, false, none, 0, 125, none, 16⟩
        ⟨true, 3, true, 5, true, true, true, true, true⟩
        GstSrt.SRT_ERROR).options.any GstSrt.SockOpt.isSndSyn) = false ∧
    (GstSrt.gst_srt_client_connect_full
        ⟨true, some "127.0.0.1", 7001, false, none, 0, 125, none, 16⟩
        ⟨true, 3, true, 5, true, true, true, true, true⟩
        GstSrt.SRT_ERROR).sock = 5 := by
  constructor <;> rfl

/-- C5 (amended: the helper does not emit a non-blocking send mode
assignment; all other listed assignments are as claimed): once the socket
is created, the emitted option assignments are exactly `connectOptions` and
include TSBPD mode enabled, linger disabled, the sender flag matching the
role, the latency on peer-latency for a sender and on receive-latency for a
receiver, the rendezvous flag, and the passphrase plus key length exactly
when the passphrase is non-empty. -/
theorem c5_option_profile_amended (args : GstSrt.ConnectArgs)
    (env : GstSrt.ConnectEnv)
    (hreach : GstSrt.connectReachedSock args env = true) :
    (GstSrt.gst_srt_client_connect_full args env GstSrt.SRT_ERROR).options =
      GstSrt.connectOptions args ∧
    GstSrt.SockOpt.tsbpdmode 1 ∈ GstSrt.connectOptions args ∧
    GstSrt.SockOpt.linger 0 ∈ GstSrt.connectOptions args ∧
    GstSrt.SockOpt.sender (if args.is_sender then 1 else 0) ∈
      GstSrt.connectOptions args ∧
    (args.is_sender = true →
      GstSrt.SockOpt.peerlatency args.latency ∈ GstSrt.connectOptions args) ∧
    (args.is_sender = false →
      GstSrt.SockOpt.rcvlatency args.latency ∈ GstSrt.connectOptions args) ∧
    GstSrt.SockOpt.rendezvous (if args.rendezvous then 1 else 0) ∈
      GstSrt.connectOptions args ∧
    (∀ p, args.passphrase = some p → p ≠ "" →
      GstSrt.SockOpt.passphrase p ∈ GstSrt.connectOptions args ∧
      GstSrt.SockOpt.pbkeylen args.key_length ∈ GstSrt.connectOptions args) ∧
    ((args.passphrase = none ∨ args.passphrase = some "") →
      (∀ p, GstSrt.SockOpt.passphrase p ∉ GstSrt.connectOptions args) ∧
      (∀ k, GstSrt.SockOpt.pbkeylen k ∉ GstSrt.connectOptions args)) := by
  refine ⟨?_, ?_, ?_, ?_, fun hsend => ?_, fun hrecv => ?_, ?_,
    fun p hp hne => ?_, fun hn => ?_⟩
  · have hc := connect_full_characterization args env
    by_cases hsucc : GstSrt.connectSucceeds args env = true
    · rw [hc, if_pos hsucc]
    · rw [hc, if_neg (by simpa using hsucc)]
      simp [hreach]
  · simp [GstSrt.connectOptions]
  · simp [GstSrt.connectOptions]
  · simp [GstSrt.connectOptions]
  · simp [GstSrt.connectOptions, hsend]
  · simp [GstSrt.connectOptions, hrecv]
  · simp [GstSrt.connectOptions]
  · constructor <;> simp [GstSrt.connectOptions, hp, hne]
  · rcases hn with hn | hn <;>
      refine ⟨fun p => ?_, fun k => ?_⟩ <;> simp [GstSrt.connectOptions, hn] <;>
      split <;> simp

/-- C5 witness: a sender with a non-empty passphrase gets the sender flag,
peer latency, rendezvous flag, passphrase and key length. -/
theorem c5_option_profile_amended_witness :
    (GstSrt.gst_srt_client_connect_full
        ⟨true, some "127.0.0.1", 7001, false, none, 0, 125, some "secret", 24⟩
        ⟨true, 3, true, 5, true, true, true, true, true⟩
        GstSrt.SRT_ERROR).options =
      GstSrt.connectOptions
        ⟨true, some "127.0.0.1", 7001, false, none, 0, 125, some "secret", 24⟩ ∧
    GstSrt.SockOpt.peerlatency 125 ∈ GstSrt.connectOptions
        ⟨true, some "127.0.0.1", 7001, false, none, 0, 125, some "secret", 24⟩ ∧
    GstSrt.SockOpt.passphrase "secret" ∈ GstSrt.connectOptions
        ⟨true, some "127.0.0.1", 7001, false, none, 0, 125, some "secret", 24⟩ ∧
    GstSrt.SockOpt.pbkeylen 24 ∈ GstSrt.connectOptions
        ⟨true, some "127.0.0.1", 7001, false, none, 0, 125, some "secret", 24⟩ := by
  have h := c5_option_profile_amended
    ⟨true, some "127.0.0.1", 7001, false, none, 0, 125, some "secret", 24⟩
    ⟨true, 3, true, 5, true, true, true, true, true⟩ (by decide)
  exact ⟨h.1, h.2.2.2.2.1 rfl,
    (h.2.2.2.2.2.2.2.1 "secret" rfl (by decide)).1,
    (h.2.2.2.2.2.2.2.1 "secret" rfl (by decide)).2⟩
/-- C9 witness: the third fill of the 5, 6, 9 scenario, taken on its own. -/
theorem c9_sequence_gap_witness :
    (GstSrt.gst_srt_client_src_fill ⟨6⟩ ⟨true, some 1316, 9, 0⟩).drops_reported
      = [2] ∧
    (GstSrt.gst_srt_client_src_fill ⟨6⟩ ⟨true, some 1316, 9, 0⟩).state.last_msg_num
      = 9 := by
  have h := c9_sequence_gap.2 ⟨6⟩ ⟨true, some 1316, 9, 0⟩ 1315 rfl rfl
  refine ⟨?_, h.2⟩
  rw [h.1]
  norm_num

namespace GstSrt

/-! ### Counting helpers for the registry proofs -/

theorem countCid_nil (x : Nat) : countCid [] x = 0 := rfl

theorem countCid_cons (c : SRTClient) (l : List SRTClient) (x : Nat) :
    countCid (c :: l) x = (if c.cid = x then 1 else 0) + countCid l x := by
  simp only [countCid, List.map_cons, List.count_cons]
  by_cases h : c.cid = x <;> simp [h, beq_iff_eq, Nat.add_comm]

theorem countCid_append (l₁ l₂ : List SRTClient) (x : Nat) :
    countCid (l₁ ++ l₂) x = countCid l₁ x + countCid l₂ x := by
  simp [countCid, List.count_append]

theorem countCid_filter_add (p : SRTClient → Bool) (l : List SRTClient)
    (x : Nat) :
    countCid (l.filter p) x + countCid (l.filter (fun c => !p c)) x =
      countCid l x := by
  induction l with
  | nil => rfl
  | cons c rest ih =>
      by_cases h : p c = true <;>
        simp [List.filter_cons, h, countCid_cons, ← ih] <;> omega

theorem countCid_filter_le (p : SRTClient → Bool) (l : List SRTClient)
    (x : Nat) : countCid (l.filter p) x ≤ countCid l x := by
  have := countCid_filter_add p l x
  omega

theorem mem_map_iff_countCid_pos (l : List SRTClient) (x : Nat) :
    x ∈ l.map SRTClient.cid ↔ 0 < countCid l x := by
  simp [countCid, List.count_pos_iff]

/-! ### Per-client facts about the delivery loop bodies -/

theorem keepLive_eq (env : CycleEnv) (c : SRTClient) :
    keepLive env c =
      (env.sendOk c.cid && (can_client_recv (env.unack c.cid) ||
        !(decide (MAX_SEND_FAILS ≤ c.num_send_fails + 1)))) := by
  unfold keepLive processLiveClient
  by_cases h1 : can_client_recv (env.unack c.cid) <;>
    by_cases h2 : env.sendOk c.cid <;>
    by_cases h3 : MAX_SEND_FAILS ≤ c.num_send_fails + 1 <;>
    simp [h1, h2, h3]

theorem processLiveClient_cid (env : CycleEnv) (c c' : SRTClient)
    (h : (processLiveClient env c).1 = some c') : c'.cid = c.cid := by
  unfold processLiveClient at h
  by_cases h1 : can_client_recv (env.unack c.cid) <;>
    by_cases h2 : env.sendOk c.cid <;>
    by_cases h3 : MAX_SEND_FAILS ≤ c.num_send_fails + 1 <;>
    simp [h1, h2, h3] at h <;> (try subst h) <;> simp

theorem processLiveClient_none (env : CycleEnv) (c : SRTClient)
    (h : (processLiveClient env c).1 = none) : keepLive env c = false := by
  simp [keepLive, h]

theorem processLiveClient_removed_count (env : CycleEnv) (c : SRTClient)
    (x : Nat) :
    removedCount (processLiveClient env c).2 x =
      if keepLive env c then 0 else if c.cid = x then 1 else 0 := by
  rw [keepLive_eq]
  unfold processLiveClient removedCount
  rcases eq_or_ne c.cid x with h4 | h4
  · subst h4
    by_cases h1 : can_client_recv (env.unack c.cid) <;>
      by_cases h2 : env.sendOk c.cid <;>
      by_cases h3 : MAX_SEND_FAILS ≤ c.num_send_fails + 1 <;>
      simp [h1, h2, h3, List.count_cons, List.count_nil]
  · by_cases h1 : can_client_recv (env.unack c.cid) <;>
      by_cases h2 : env.sendOk c.cid <;>
      by_cases h3 : MAX_SEND_FAILS ≤ c.num_send_fails + 1 <;>
      simp [h1, h2, h3, h4, List.count_cons, List.count_nil]

theorem processLiveClient_closed_count (env : CycleEnv) (c : SRTClient)
    (x : Nat) :
    (processLiveClient env c).2.count (Ev.sockClosed x) =
      if keepLive env c then 0 else if c.cid = x then 1 else 0 := by
  rw [keepLive_eq]
  unfold processLiveClient
  rcases eq_or_ne c.cid x with h4 | h4
  · subst h4
    by_cases h1 : can_client_recv (env.unack c.cid) <;>
      by_cases h2 : env.sendOk c.cid <;>
      by_cases h3 : MAX_SEND_FAILS ≤ c.num_send_fails + 1 <;>
      simp [h1, h2, h3, List.count_cons, List.count_nil]
  · by_cases h1 : can_client_recv (env.unack c.cid) <;>
      by_cases h2 : env.sendOk c.cid <;>
      by_cases h3 : MAX_SEND_FAILS ≤ c.num_send_fails + 1 <;>
      simp [h1, h2, h3, h4, List.count_cons, List.count_nil]

theorem processLiveClient_added_count (env : CycleEnv) (c : SRTClient)
    (x : Nat) : addedCount (processLiveClient env c).2 x = 0 := by
  unfold processLiveClient addedCount
  by_cases h1 : can_client_recv (env.unack c.cid) <;>
    by_cases h2 : env.sendOk c.cid <;>
    by_cases h3 : MAX_SEND_FAILS ≤ c.num_send_fails + 1 <;>
    simp [h1, h2, h3, List.count_cons, List.count_nil]

theorem processPendingClient_fst (env : CycleEnv) (c : SRTClient) :
    (processPendingClient env c).1 =
      if keepPending env c then some c else none := by
  unfold processPendingClient keepPending
  by_cases h1 : env.headerOk c.cid <;>
    by_cases h2 : env.sendOk c.cid <;>
    simp [h1, h2]

theorem processPendingClient_removed_count (env : CycleEnv) (c : SRTClient)
    (x : Nat) :
    removedCount (processPendingClient env c).2 x =
      if keepPending env c then 0 else if c.cid = x then 1 else 0 := by
  unfold processPendingClient keepPending removedCount
  rcases eq_or_ne c.cid x with h4 | h4
  · subst h4
    by_cases h1 : env.headerOk c.cid <;>
      by_cases h2 : env.sendOk c.cid <;>
      simp [h1, h2, List.count_cons, List.count_nil]
  · by_cases h1 : env.headerOk c.cid <;>
      by_cases h2 : env.sendOk c.cid <;>
      simp [h1, h2, h4, List.count_cons, List.count_nil]

theorem processPendingClient_closed_count (env : CycleEnv) (c : SRTClient)
    (x : Nat) :
    (processPendingClient env c).2.count (Ev.sockClosed x) =
      if keepPending env c then 0 else if c.cid = x then 1 else 0 := by
  unfold processPendingClient keepPending
  rcases eq_or_ne c.cid x with h4 | h4
  · subst h4
    by_cases h1 : env.headerOk c.cid <;>
      by_cases h2 : env.sendOk c.cid <;>
      simp [h1, h2, List.count_cons, List.count_nil]
  · by_cases h1 : env.headerOk c.cid <;>
      by_cases h2 : env.sendOk c.cid <;>
      simp [h1, h2, h4, List.count_cons, List.count_nil]

theorem processPendingClient_added_count (env : CycleEnv) (c : SRTClient)
    (x : Nat) : addedCount (processPendingClient env c).2 x = 0 := by
  unfold processPendingClient addedCount
  by_cases h1 : env.headerOk c.cid <;>
    by_cases h2 : env.sendOk c.cid <;>
    simp [h1, h2, List.count_cons, List.count_nil]

theorem processPendingClient_header_count (env : CycleEnv) (c : SRTClient)
    (x : Nat) :
    (processPendingClient env c).2.count (Ev.headerAttempt x) =
      if c.cid = x then 1 else 0 := by
  unfold processPendingClient
  rcases eq_or_ne c.cid x with h4 | h4
  · subst h4
    by_cases h1 : env.headerOk c.cid <;>
      by_cases h2 : env.sendOk c.cid <;>
      simp [h1, h2, List.count_cons, List.count_nil]
  · by_cases h1 : env.headerOk c.cid <;>
      by_cases h2 : env.sendOk c.cid <;>
      simp [h1, h2, h4, List.count_cons, List.count_nil]

theorem processPendingClient_send_count (env : CycleEnv) (c : SRTClient)
    (x : Nat) :
    (processPendingClient env c).2.count (Ev.sendAttempt x) =
      if env.headerOk c.cid then (if c.cid = x then 1 else 0) else 0 := by
  unfold processPendingClient
  rcases eq_or_ne c.cid x with h4 | h4
  · subst h4
    by_cases h1 : env.headerOk c.cid <;>
      by_cases h2 : env.sendOk c.cid <;>
      simp [h1, h2, List.count_cons, List.count_nil]
  · by_cases h1 : env.headerOk c.cid <;>
      by_cases h2 : env.sendOk c.cid <;>
      simp [h1, h2, h4, List.count_cons, List.count_nil]

end GstSrt

namespace GstSrt

/-! ### List-level facts about the delivery loops -/

theorem processLive_snd (env : CycleEnv) (c : SRTClient)
    (rest : List SRTClient) :
    (processLive env (c :: rest)).2 =
      (processLiveClient env c).2 ++ (processLive env rest).2 := rfl

theorem processLive_surv_count (env : CycleEnv) (l : List SRTClient)
    (x : Nat) :
    countCid (processLive env l).1 x =
      countCid (l.filter (keepLive env)) x := by
  induction l with
  | nil => rfl
  | cons c rest ih =>
      rcases h : (processLiveClient env c).1 with _ | c'
      · have hk : keepLive env c = false := by simp [keepLive, h]
        simp only [processLive, h, List.filter_cons, hk]
        exact ih
      · have hk : keepLive env c = true := by simp [keepLive, h]
        have hcid := processLiveClient_cid env c c' h
        simp only [processLive, h, List.filter_cons, hk, if_pos,
          countCid_cons, hcid]
        omega

theorem processLive_removed_count (env : CycleEnv) (l : List SRTClient)
    (x : Nat) :
    removedCount (processLive env l).2 x =
      countCid (l.filter (fun c => !keepLive env c)) x := by
  induction l with
  | nil => rfl
  | cons c rest ih =>
      have hc := processLiveClient_removed_count env c x
      by_cases hk : keepLive env c = true <;>
        simp only [removedCount, processLive_snd, List.count_append,
          List.filter_cons, hk] <;>
        simp only [removedCount] at hc ih <;>
        simp only [hk, if_true, if_false, Bool.not_true, Bool.not_false] at hc <;>
        simp [hc, ih, countCid_cons] <;> omega

theorem processLive_added_count (env : CycleEnv) (l : List SRTClient)
    (x : Nat) : addedCount (processLive env l).2 x = 0 := by
  induction l with
  | nil => rfl
  | cons c rest ih =>
      have hc := processLiveClient_added_count env c x
      simp only [addedCount, processLive_snd, List.count_append] at *
      omega

theorem drainPending_surv_count (env : CycleEnv) (pend : List SRTClient) :
    ∀ (live : List SRTClient) (x : Nat),
      countCid (drainPending env live pend).1 x =
        countCid live x + countCid (pend.filter (keepPending env)) x := by
  induction pend with
  | nil => intro live x; rfl
  | cons c rest ih =>
      intro live x
      have hf := processPendingClient_fst env c
      by_cases hk : keepPending env c = true
      · rw [if_pos hk] at hf
        simp only [drainPending, hf]
        rcases h : processPendingClient env c with ⟨oc, evs⟩
        rw [h] at hf; cases hf
        simp only [List.filter_cons, hk, if_pos, ih, countCid_cons]
        omega
      · rw [if_neg hk] at hf
        rcases h : processPendingClient env c with ⟨oc, evs⟩
        rw [h] at hf; cases hf
        simp only [drainPending, h, List.filter_cons, hk]
        simp only [Bool.false_eq_true, if_false, ih]

theorem drainPending_snd (env : CycleEnv) (live : List SRTClient)
    (c : SRTClient) (rest : List SRTClient) :
    ∃ live', (drainPending env live (c :: rest)).2 =
      (processPendingClient env c).2 ++ (drainPending env live' rest).2 := by
  rcases h : processPendingClient env c with ⟨oc, evs⟩
  cases oc with
  | some c' => exact ⟨c' :: live, by simp [drainPending, h]⟩
  | none => exact ⟨live, by simp [drainPending, h]⟩

theorem drainPending_snd_indep (env : CycleEnv) (pend : List SRTClient) :
    ∀ live live' : List SRTClient,
      (drainPending env live pend).2 = (drainPending env live' pend).2 := by
  induction pend with
  | nil => intro live live'; rfl
  | cons c rest ih =>
      intro live live'
      rcases h : processPendingClient env c with ⟨oc, evs⟩
      cases oc <;> simp [drainPending, h, ih _ live']

theorem drainPending_count_aux (env : CycleEnv) (pend : List SRTClient)
    (ev : Ev) (g : SRTClient → Nat)
    (hg : ∀ c, (processPendingClient env c).2.count ev = g c) :
    ∀ live : List SRTClient,
      (drainPending env live pend).2.count ev = (pend.map g).sum := by
  induction pend with
  | nil => intro live; rfl
  | cons c rest ih =>
      intro live
      obtain ⟨live', hl⟩ := drainPending_snd env live c rest
      rw [hl, List.count_append, hg, ih]
      simp

end GstSrt

namespace GstSrt

theorem sum_count_filter (p : SRTClient → Bool) (l : List SRTClient)
    (x : Nat) :
    (l.map (fun c => if p c then (if c.cid = x then 1 else 0) else 0)).sum =
      countCid (l.filter p) x := by
  induction l with
  | nil => rfl
  | cons c rest ih =>
      by_cases hp : p c = true <;>
        by_cases hx : c.cid = x <;>
        simp [List.filter_cons, hp, hx, countCid_cons, ih]

theorem drainPending_removed_count (env : CycleEnv) (pend : List SRTClient)
    (live : List SRTClient) (x : Nat) :
    removedCount (drainPending env live pend).2 x =
      countCid (pend.filter (fun c => !keepPending env c)) x := by
  have h := drainPending_count_aux env pend (Ev.removed x)
    (fun c => if !keepPending env c then (if c.cid = x then 1 else 0) else 0)
    (fun c => by
      have hc := processPendingClient_removed_count env c x
      by_cases hk : keepPending env c = true <;>
        simp only [removedCount] at hc <;> simp [hk, hc]) live
  rw [removedCount, h, sum_count_filter]

theorem drainPending_closed_count (env : CycleEnv) (pend : List SRTClient)
    (live : List SRTClient) (x : Nat) :
    (drainPending env live pend).2.count (Ev.sockClosed x) =
      countCid (pend.filter (fun c => !keepPending env c)) x := by
  have h := drainPending_count_aux env pend (Ev.sockClosed x)
    (fun c => if !keepPending env c then (if c.cid = x then 1 else 0) else 0)
    (fun c => by
      have hc := processPendingClient_closed_count env c x
      by_cases hk : keepPending env c = true <;> simp [hk, hc]) live
  rw [h, sum_count_filter]

theorem drainPending_header_count (env : CycleEnv) (pend : List SRTClient)
    (live : List SRTClient) (x : Nat) :
    (drainPending env live pend).2.count (Ev.headerAttempt x) =
      countCid pend x := by
  have h := drainPending_count_aux env pend (Ev.headerAttempt x)
    (fun c => if (fun _ : SRTClient => true) c then
        (if c.cid = x then 1 else 0) else 0)
    (fun c => by
      have hc := processPendingClient_header_count env c x
      simp [hc]) live
  rw [h, sum_count_filter]
  simp [List.filter_true]

theorem drainPending_send_count (env : CycleEnv) (pend : List SRTClient)
    (live : List SRTClient) (x : Nat) :
    (drainPending env live pend).2.count (Ev.sendAttempt x) =
      countCid (pend.filter (fun c => env.headerOk c.cid)) x := by
  have h := drainPending_count_aux env pend (Ev.sendAttempt x)
    (fun c => if env.headerOk c.cid then (if c.cid = x then 1 else 0) else 0)
    (fun c => processPendingClient_send_count env c x) live
  rw [h, sum_count_filter]

theorem drainPending_added_count (env : CycleEnv) (pend : List SRTClient)
    (live : List SRTClient) (x : Nat) :
    addedCount (drainPending env live pend).2 x = 0 := by
  have h := drainPending_count_aux env pend (Ev.added x) (fun _ => 0)
    (fun c => processPendingClient_added_count env c x) live
  rw [addedCount, h]
  simp

/-! ### Facts about the shutdown events -/

theorem count_map_removed (l : List SRTClient) (x : Nat) :
    (l.map (fun c => Ev.removed c.cid)).count (Ev.removed x) =
      countCid l x := by
  induction l with
  | nil => rfl
  | cons c rest ih =>
      by_cases hx : c.cid = x <;>
        simp [List.count_cons, hx, countCid_cons, ih] <;> omega

theorem count_map_closed_removed (l : List SRTClient) (x : Nat) :
    (l.map (fun c => Ev.sockClosed c.cid)).count (Ev.removed x) = 0 := by
  induction l with
  | nil => rfl
  | cons c rest ih => simp [List.count_cons, ih]

theorem count_flatMap_removed (l : List SRTClient) (x : Nat) :
    (l.flatMap (fun c => [Ev.removed c.cid, Ev.sockClosed c.cid])).count
        (Ev.removed x) = countCid l x := by
  induction l with
  | nil => rfl
  | cons c rest ih =>
      by_cases hx : c.cid = x <;>
        simp [List.count_cons, hx, countCid_cons, ih] <;> omega

theorem stopEvents_removed_count (live pending : List SRTClient) (x : Nat) :
    removedCount (stopEvents live pending) x =
      countCid live x + countCid pending x := by
  simp [stopEvents, removedCount, List.count_append, count_map_removed,
    count_map_closed_removed, count_flatMap_removed]

theorem stopEvents_added_count (live pending : List SRTClient) (x : Nat) :
    addedCount (stopEvents live pending) x = 0 := by
  unfold stopEvents addedCount
  induction live with
  | nil =>
      induction pending with
      | nil => rfl
      | cons c rest ih => simpa [List.count_cons] using ih
  | cons c rest ih => simpa [List.count_cons] using ih

end GstSrt

namespace GstSrt

/-! ### The registry invariant -/

theorem serverInv_init : ServerInv serverInit := by
  refine ⟨fun x => ?_, fun x => ?_, fun x => ?_, fun x _ => ⟨?_, ?_⟩⟩ <;>
    simp [serverInit, regCount, countCid, addedCount, removedCount]

theorem serverInv_accept (s : ServerState) (hinv : ServerInv s) :
    ServerInv (acceptStep s) := by
  obtain ⟨i1, i2, i3, i4⟩ := hinv
  have hreg : ∀ x, regCount (acceptStep s) x =
      regCount s x + (if s.nextCid = x then 1 else 0) := by
    intro x
    simp only [regCount, acceptStep, countCid_append]
    have : countCid [⟨s.nextCid, 0⟩] x = if s.nextCid = x then 1 else 0 := by
      simp [countCid_cons, countCid_nil]
    omega
  have hadd : ∀ x, addedCount (acceptStep s).events x =
      addedCount s.events x + (if s.nextCid = x then 1 else 0) := by
    intro x
    simp only [addedCount, acceptStep, List.count_append]
    by_cases hx : s.nextCid = x <;> simp [List.count_cons, hx]
  have hrem : ∀ x, removedCount (acceptStep s).events x =
      removedCount s.events x := by
    intro x
    simp [removedCount, acceptStep, List.count_append, List.count_cons]
  refine ⟨fun x => ?_, fun x => ?_, fun x => ?_, fun x hx => ⟨?_, ?_⟩⟩
  · rcases eq_or_ne s.nextCid x with he | he
    · have h0 := i4 x (le_of_eq he)
      rw [hreg, if_pos he]
      omega
    · have := i1 x
      rw [hreg, if_neg he]
      omega
  · rcases eq_or_ne s.nextCid x with he | he
    · have h0 := i4 x (le_of_eq he)
      rw [hadd, if_pos he]
      omega
    · rw [hadd, if_neg he]
      have := i2 x
      omega
  · have h3 := i3 x
    rcases eq_or_ne s.nextCid x with he | he
    · have h0 := i4 x (le_of_eq he)
      rw [hadd, hreg, hrem, if_pos he]
      omega
    · rw [hadd, hreg, hrem, if_neg he]
      omega
  · have hx' : s.nextCid ≤ x := by
      simp only [acceptStep] at hx
      omega
    have hne : s.nextCid ≠ x := by
      simp only [acceptStep] at hx
      omega
    have h0 := i4 x hx'
    rw [hadd, if_neg hne]
    omega
  · have hx' : s.nextCid ≤ x := by
      simp only [acceptStep] at hx
      omega
    have hne : s.nextCid ≠ x := by
      simp only [acceptStep] at hx
      omega
    have h0 := i4 x hx'
    rw [hreg, if_neg hne]
    omega

theorem serverInv_deliver (env : CycleEnv) (s : ServerState)
    (hinv : ServerInv s) : ServerInv (deliverStep env s) := by
  obtain ⟨i1, i2, i3, i4⟩ := hinv
  have hreg : ∀ x, regCount (deliverStep env s) x =
      countCid (s.live.filter (keepLive env)) x +
        countCid (s.pending.filter (keepPending env)) x := by
    intro x
    simp only [regCount, deliverStep, gst_srt_server_sink_send_buffer]
    rw [drainPending_surv_count, processLive_surv_count]
    simp [countCid]
  have hadd : ∀ x, addedCount (deliverStep env s).events x =
      addedCount s.events x := by
    intro x
    simp only [addedCount, deliverStep, gst_srt_server_sink_send_buffer,
      List.count_append]
    have h1 := processLive_added_count env s.live x
    have h2 := drainPending_added_count env s.pending
      (processLive env s.live).1 x
    simp only [addedCount] at h1 h2
    omega
  have hrem : ∀ x, removedCount (deliverStep env s).events x =
      removedCount s.events x +
        countCid (s.live.filter (fun c => !keepLive env c)) x +
        countCid (s.pending.filter (fun c => !keepPending env c)) x := by
    intro x
    simp only [removedCount, deliverStep, gst_srt_server_sink_send_buffer,
      List.count_append]
    have h1 := processLive_removed_count env s.live x
    have h2 := drainPending_removed_count env s.pending
      (processLive env s.live).1 x
    simp only [removedCount] at h1 h2
    omega
  have hsplit1 := countCid_filter_add (keepLive env) s.live
  have hsplit2 := countCid_filter_add (keepPending env) s.pending
  refine ⟨fun x => ?_, fun x => ?_, fun x => ?_, fun x hx => ⟨?_, ?_⟩⟩
  · have ha := i1 x
    have hb := hsplit1 x
    have hc2 := hsplit2 x
    rw [hreg]
    simp only [regCount] at ha
    omega
  · rw [hadd]; exact i2 x
  · have ha := i3 x
    have hb := hsplit1 x
    have hc2 := hsplit2 x
    rw [hadd, hreg, hrem]
    simp only [regCount] at ha
    omega
  · rw [hadd]; exact (i4 x hx).1
  · have h0 := (i4 x hx).2
    have hb := hsplit1 x
    have hc2 := hsplit2 x
    rw [hreg]
    simp only [regCount] at h0
    omega

theorem serverInv_stop (s : ServerState) (hinv : ServerInv s) :
    ServerInv (stopStep s) := by
  obtain ⟨i1, i2, i3, i4⟩ := hinv
  have hreg : ∀ x, regCount (stopStep s) x = 0 := by
    intro x
    simp [regCount, stopStep, countCid]
  have hadd : ∀ x, addedCount (stopStep s).events x =
      addedCount s.events x := by
    intro x
    simp only [addedCount, stopStep, List.count_append]
    have := stopEvents_added_count s.live s.pending x
    simp only [addedCount] at this
    omega
  have hrem : ∀ x, removedCount (stopStep s).events x =
      removedCount s.events x + regCount s x := by
    intro x
    simp only [removedCount, stopStep, List.count_append, regCount]
    have := stopEvents_removed_count s.live s.pending x
    simp only [removedCount] at this
    omega
  refine ⟨fun x => ?_, fun x => ?_, fun x => ?_, fun x hx => ⟨?_, ?_⟩⟩
  · rw [hreg]; omega
  · rw [hadd]; exact i2 x
  · have := i3 x
    rw [hadd, hreg, hrem]
    omega
  · rw [hadd]; exact (i4 x hx).1
  · rw [hreg]

theorem serverInv_step {s s' : ServerState} (h : ServerStep s s')
    (hinv : ServerInv s) : ServerInv s' := by
  cases h with
  | accept s hc => exact serverInv_accept s hinv
  | deliver env s hc => exact serverInv_deliver env s hinv
  | stop s hc => exact serverInv_stop s hinv

theorem serverInv_reachable {s : ServerState} (h : ServerReachable s) :
    ServerInv s := by
  induction h with
  | init => exact serverInv_init
  | step hr hstep ih => exact serverInv_step hstep ih

end GstSrt

/-- C2: in every reachable registry state, no client id is simultaneously
in the live list and the pending queue; every registered client has exactly
one `client-added` and no `client-removed` event; every client that has
left the registry (through promotion-then-eviction, bootstrap-failure
discard, or shutdown) has exactly as many `client-removed` as
`client-added` events; and no client ever has more than one of either. -/
theorem c2_registry_invariant (s : GstSrt.ServerState)
    (hr : GstSrt.ServerReachable s) :
    (∀ x, ¬(x ∈ s.live.map GstSrt.SRTClient.cid ∧
            x ∈ s.pending.map GstSrt.SRTClient.cid)) ∧
    (∀ x, x ∈ s.live.map GstSrt.SRTClient.cid ∨
          x ∈ s.pending.map GstSrt.SRTClient.cid →
      GstSrt.addedCount s.events x = 1 ∧
      GstSrt.removedCount s.events x = 0) ∧
    (∀ x, x ∉ s.live.map GstSrt.SRTClient.cid →
          x ∉ s.pending.map GstSrt.SRTClient.cid →
      GstSrt.removedCount s.events x = GstSrt.addedCount s.events x) ∧
    (∀ x, GstSrt.addedCount s.events x ≤ 1 ∧
          GstSrt.removedCount s.events x ≤ 1) := by
  obtain ⟨i1, i2, i3, i4⟩ := GstSrt.serverInv_reachable hr
  refine ⟨fun x hx => ?_, fun x hx => ?_, fun x hl hp => ?_,
    fun x => ⟨i2 x, ?_⟩⟩
  · obtain ⟨hl, hp⟩ := hx
    rw [GstSrt.mem_map_iff_countCid_pos] at hl hp
    have := i1 x
    simp only [GstSrt.regCount] at this
    omega
  · have h1 := i1 x
    have h2 := i2 x
    have h3 := i3 x
    simp only [GstSrt.regCount] at h1 h3
    rcases hx with hx | hx <;>
      rw [GstSrt.mem_map_iff_countCid_pos] at hx <;>
      constructor <;> omega
  · rw [GstSrt.mem_map_iff_countCid_pos] at hl hp
    have h3 := i3 x
    simp only [GstSrt.regCount] at h3
    omega
  · have h2 := i2 x
    have h3 := i3 x
    omega

/-- C2 witness: after an accept, a delivery cycle and a shutdown, client 0
is registered nowhere, and its removal events balance its added events. -/
theorem c2_registry_invariant_witness :
    GstSrt.removedCount (GstSrt.stopStep (GstSrt.deliverStep GstSrt.envClear
        (GstSrt.acceptStep GstSrt.serverInit))).events 0 =
      GstSrt.addedCount (GstSrt.stopStep (GstSrt.deliverStep GstSrt.envClear
        (GstSrt.acceptStep GstSrt.serverInit))).events 0 ∧
    ¬(0 ∈ (GstSrt.stopStep (GstSrt.deliverStep GstSrt.envClear
        (GstSrt.acceptStep GstSrt.serverInit))).live.map GstSrt.SRTClient.cid ∧
      0 ∈ (GstSrt.stopStep (GstSrt.deliverStep GstSrt.envClear
        (GstSrt.acceptStep GstSrt.serverInit))).pending.map
          GstSrt.SRTClient.cid) := by
  have hr : GstSrt.ServerReachable (GstSrt.stopStep (GstSrt.deliverStep
      GstSrt.envClear (GstSrt.acceptStep GstSrt.serverInit))) :=
    .step (.step (.step .init (.accept _ rfl)) (.deliver _ _ rfl))
      (.stop _ rfl)
  have h := c2_registry_invariant _ hr
  exact ⟨h.2.2.1 0 (by decide) (by decide), h.1 0⟩

/-- C1 (code bug): the failure counter is cumulative, not consecutive.  A
fresh live client whose backpressure check fails on 9 consecutive cycles is
still live with counter 9 (so eviction does happen on the 10th consecutive
failure and not before), but a successful check cycle does not reset the
counter, so after 9 failures, one success and a single further failure the
client is evicted — although it has only 1 consecutive failure at that
point, contradicting the claim (and the code's own "fails in a row"
comment). -/
theorem c1_backpressure_counter_cumulative :
    (GstSrt.runCycles (List.replicate 9 GstSrt.envBackpressure)
      GstSrt.singleClientState).live = [⟨0, 9⟩] ∧
    (GstSrt.runCycles (List.replicate 10 GstSrt.envBackpressure)
      GstSrt.singleClientState).live = [] ∧
    GstSrt.removedCount (GstSrt.runCycles
      (List.replicate 10 GstSrt.envBackpressure)
      GstSrt.singleClientState).events 0 = 1 ∧
    (GstSrt.deliverStep GstSrt.envClear
      (GstSrt.runCycles (List.replicate 9 GstSrt.envBackpressure)
        GstSrt.singleClientState)).live = [⟨0, 9⟩] ∧
    (GstSrt.deliverStep GstSrt.envBackpressure (GstSrt.deliverStep
      GstSrt.envClear (GstSrt.runCycles (List.replicate 9 GstSrt.envBackpressure)
        GstSrt.singleClientState))).live = [] ∧
    GstSrt.removedCount (GstSrt.deliverStep GstSrt.envBackpressure
      (GstSrt.deliverStep GstSrt.envClear (GstSrt.runCycles
        (List.replicate 9 GstSrt.envBackpressure)
        GstSrt.singleClientState))).events 0 = 1 := by
  refine ⟨?_, ?_, ?_, ?_, ?_, ?_⟩ <;> decide

namespace GstSrt

theorem countCid_pos_of_mem {c : SRTClient} {l : List SRTClient}
    (h : c ∈ l) : 1 ≤ countCid l c.cid := by
  rw [← Nat.succ_le_iff.symm]
  have : c.cid ∈ l.map SRTClient.cid := List.mem_map_of_mem _ h
  rw [mem_map_iff_countCid_pos] at this
  omega

theorem countCid_filter_eq_of_unique (p : SRTClient → Bool)
    {c : SRTClient} {l : List SRTClient} (hc : c ∈ l)
    (h1 : countCid l c.cid = 1) :
    countCid (l.filter p) c.cid = if p c then 1 else 0 := by
  induction l with
  | nil => cases hc
  | cons d rest ih =>
      rcases List.mem_cons.mp hc with he | hm
      · subst he
        have h0 : countCid rest c.cid = 0 := by
          rw [countCid_cons] at h1
          simp at h1
          omega
        have hf : countCid (rest.filter p) c.cid = 0 := by
          have := countCid_filter_le p rest c.cid
          omega
        by_cases hp : p c = true <;>
          simp [List.filter_cons, hp, countCid_cons, hf]
      · have hd : d.cid ≠ c.cid := by
          intro hdc
          have := countCid_pos_of_mem hm
          rw [countCid_cons, hdc, if_pos rfl] at h1
          omega
        have h1' : countCid rest c.cid = 1 := by
          rw [countCid_cons, if_neg hd] at h1
          omega
        by_cases hp : p d = true <;>
          simp [List.filter_cons, hp, countCid_cons, if_neg hd, ih hm h1']

end GstSrt

/-- C3: a client drained from the pending queue ends up in the live list
exactly when both the bootstrap header send and the send of the current
outbound unit succeed; if either fails, exactly one removal event is
emitted for it, its socket is closed, and it is never added to the live
list; on success, no removal is emitted and exactly one header send and one
data send were performed for it. -/
theorem c3_pending_bootstrap (env : GstSrt.CycleEnv)
    (live pend : List GstSrt.SRTClient) (c : GstSrt.SRTClient)
    (hc : c ∈ pend)
    (hnodup : ((live ++ pend).map GstSrt.SRTClient.cid).Nodup) :
    (c.cid ∈ (GstSrt.drainPending env live pend).1.map GstSrt.SRTClient.cid ↔
      env.headerOk c.cid = true ∧ env.sendOk c.cid = true) ∧
    (¬(env.headerOk c.cid = true ∧ env.sendOk c.cid = true) →
      GstSrt.removedCount (GstSrt.drainPending env live pend).2 c.cid = 1 ∧
      (GstSrt.drainPending env live pend).2.count
        (GstSrt.Ev.sockClosed c.cid) = 1 ∧
      c.cid ∉ (GstSrt.drainPending env live pend).1.map
        GstSrt.SRTClient.cid) ∧
    (env.headerOk c.cid = true ∧ env.sendOk c.cid = true →
      GstSrt.removedCount (GstSrt.drainPending env live pend).2 c.cid = 0 ∧
      (GstSrt.drainPending env live pend).2.count
        (GstSrt.Ev.headerAttempt c.cid) = 1 ∧
      (GstSrt.drainPending env live pend).2.count
        (GstSrt.Ev.sendAttempt c.cid) = 1) := by
  have hcount : GstSrt.countCid live c.cid + GstSrt.countCid pend c.cid ≤ 1 := by
    have hn := List.nodup_iff_count_le_one.mp hnodup c.cid
    rw [List.map_append, List.count_append] at hn
    simpa [GstSrt.countCid] using hn
  have hpos := GstSrt.countCid_pos_of_mem hc
  have hlive0 : GstSrt.countCid live c.cid = 0 := by omega
  have hpend1 : GstSrt.countCid pend c.cid = 1 := by omega
  have hsurv := GstSrt.drainPending_surv_count env pend live c.cid
  have hkeep := GstSrt.countCid_filter_eq_of_unique
    (GstSrt.keepPending env) hc hpend1
  have hnkeep := GstSrt.countCid_filter_eq_of_unique
    (fun d => !GstSrt.keepPending env d) hc hpend1
  have hhdr := GstSrt.countCid_filter_eq_of_unique
    (fun d => env.headerOk d.cid) hc hpend1
  have hrem := GstSrt.drainPending_removed_count env pend live c.cid
  have hcls := GstSrt.drainPending_closed_count env pend live c.cid
  have hhd := GstSrt.drainPending_header_count env pend live c.cid
  have hsnd := GstSrt.drainPending_send_count env pend live c.cid
  have hmem : c.cid ∈ (GstSrt.drainPending env live pend).1.map
      GstSrt.SRTClient.cid ↔
      GstSrt.keepPending env c = true := by
    rw [GstSrt.mem_map_iff_countCid_pos, hsurv, hlive0, hkeep]
    by_cases hk : GstSrt.keepPending env c = true <;> simp [hk]
  refine ⟨?_, fun hne => ⟨?_, ?_, ?_⟩, fun hok => ⟨?_, ?_, ?_⟩⟩
  · rw [hmem]
    simp [GstSrt.keepPending]
  · have hk : GstSrt.keepPending env c = false := by
      simp only [GstSrt.keepPending]
      rcases not_and_or.mp hne with h | h <;> simp [eq_false_of_ne_true h]
    rw [hrem, hnkeep]
    simp [hk]
  · have hk : GstSrt.keepPending env c = false := by
      simp only [GstSrt.keepPending]
      rcases not_and_or.mp hne with h | h <;> simp [eq_false_of_ne_true h]
    rw [hcls, hnkeep]
    simp [hk]
  · rw [hmem]
    simp only [GstSrt.keepPending]
    intro hcontra
    exact hne (by simpa using hcontra)
  · have hk : GstSrt.keepPending env c = true := by
      simp [GstSrt.keepPending, hok.1, hok.2]
    rw [hrem, hnkeep]
    simp [hk]
  · rw [hhd, hpend1]
  · rw [hsnd, hhdr]
    simp [hok.1]

/-- C3 witness: a single pending client with successful header and data
sends is promoted; its promotion facts follow from the theorem. -/
theorem c3_pending_bootstrap_witness :
    ((0 : Nat) ∈ (GstSrt.drainPending GstSrt.envClear [] [⟨0, 0⟩]).1.map
        GstSrt.SRTClient.cid ↔
      GstSrt.envClear.headerOk 0 = true ∧ GstSrt.envClear.sendOk 0 = true) ∧
    GstSrt.removedCount (GstSrt.drainPending GstSrt.envClear [] [⟨0, 0⟩]).2 0
      = 0 ∧
    (GstSrt.drainPending GstSrt.envClear [] [⟨0, 0⟩]).2.count
      (GstSrt.Ev.headerAttempt 0) = 1 ∧
    (GstSrt.drainPending GstSrt.envClear [] [⟨0, 0⟩]).2.count
      (GstSrt.Ev.sendAttempt 0) = 1 := by
  have h := c3_pending_bootstrap GstSrt.envClear [] [⟨0, 0⟩] ⟨0, 0⟩
    (by decide) (by decide)
  exact ⟨h.1, h.2.2 ⟨rfl, rfl⟩⟩

namespace GstSrt

theorem processLive_single_failure (env : CycleEnv) (c0 : Nat)
    (hfail : env.sendOk c0 = false)
    (hothers : ∀ x, x ≠ c0 → env.sendOk x = true) :
    ∀ live : List SRTClient,
      (∀ c ∈ live, can_client_recv (env.unack c.cid) = true) →
      ((processLive env live).1.map SRTClient.cid =
        (live.map SRTClient.cid).filter (fun x => x != c0)) ∧
      removedCount (processLive env live).2 c0 = countCid live c0 ∧
      (processLive env live).2.count (Ev.sockClosed c0) = countCid live c0 ∧
      (∀ x, (processLive env live).2.count (Ev.sendAttempt x) =
        countCid live x) ∧
      (∀ x, x ≠ c0 → removedCount (processLive env live).2 x = 0) := by
  intro live
  induction live with
  | nil =>
      intro _
      refine ⟨rfl, rfl, rfl, fun x => rfl, fun x _ => rfl⟩
  | cons c rest ih =>
      intro hcan
      have hcr : can_client_recv (env.unack c.cid) = true :=
        hcan c (List.mem_cons_self c rest)
      obtain ⟨ih1, ih2, ih3, ih4, ih5⟩ :=
        ih (fun d hd => hcan d (List.mem_cons_of_mem c hd))
      by_cases hx : c.cid = c0
      · have hs : env.sendOk c.cid = false := by rw [hx]; exact hfail
        have hpc : processLiveClient env c =
            (none, [Ev.sendAttempt c.cid, Ev.removed c.cid,
              Ev.sockClosed c.cid]) := by
          simp [processLiveClient, hcr, hs]
        refine ⟨?_, ?_, ?_, fun x => ?_, fun x hxne => ?_⟩
        · simp only [processLive, hpc, List.map_cons, List.filter_cons, hx]
          simpa using ih1
        · simp only [removedCount, processLive_snd, hpc, List.count_append,
            List.count_cons, countCid_cons, hx]
          simp only [removedCount] at ih2
          simp [ih2]
        · simp only [processLive_snd, hpc, List.count_append,
            List.count_cons, countCid_cons, hx]
          simp [ih3]
        · simp only [processLive_snd, hpc, List.count_append,
            List.count_cons, countCid_cons]
          rcases eq_or_ne c.cid x with he | he
          · simp [he, ih4 x]
          · simp [he, ih4 x]
        · simp only [removedCount, processLive_snd, hpc, List.count_append,
            List.count_cons]
          have h5 := ih5 x hxne
          simp only [removedCount] at h5
          have : c.cid ≠ x := by rw [hx]; exact fun h => hxne h.symm
          simp [h5, this]
      · have hs : env.sendOk c.cid = true := hothers c.cid hx
        have hpc : processLiveClient env c = (some c, [Ev.sendAttempt c.cid]) := by
          simp [processLiveClient, hcr, hs]
        refine ⟨?_, ?_, ?_, fun x => ?_, fun x hxne => ?_⟩
        · simp only [processLive, hpc, List.map_cons, List.filter_cons]
          have : (c.cid != c0) = true := by simp [hx]
          simp [this, ih1]
        · simp only [removedCount, processLive_snd, hpc, List.count_append,
            List.count_cons, countCid_cons]
          simp only [removedCount] at ih2
          have : c.cid ≠ c0 := hx
          simp [ih2, this]
        · simp only [processLive_snd, hpc, List.count_append,
            List.count_cons, countCid_cons]
          have : c.cid ≠ c0 := hx
          simp [ih3, this]
        · simp only [processLive_snd, hpc, List.count_append,
            List.count_cons, countCid_cons]
          rcases eq_or_ne c.cid x with he | he
          · simp [he, ih4 x]
          · simp [he, ih4 x]
        · simp only [removedCount, processLive_snd, hpc, List.count_append,
            List.count_cons]
          have h5 := ih5 x hxne
          simp only [removedCount] at h5
          simp [h5]

end GstSrt

/-- C6: in a delivery cycle (with an empty pending queue) in which every
live client passes the backpressure check and exactly client `c0` fails its
send, that client alone is evicted — one removal event, one socket close —
every live client (including the failing one, once) receives a send
attempt, every other client survives with no removal, and the overall send
operation still returns TRUE to the session (as it does on every input). -/
theorem c6_send_failure_isolated (env : GstSrt.CycleEnv)
    (live : List GstSrt.SRTClient) (c0 : Nat)
    (hcan : ∀ c ∈ live, GstSrt.can_client_recv (env.unack c.cid) = true)
    (hfail : env.sendOk c0 = false)
    (hothers : ∀ x, x ≠ c0 → env.sendOk x = true) :
    (∀ (env' : GstSrt.CycleEnv) (l p : List GstSrt.SRTClient),
      (GstSrt.gst_srt_server_sink_send_buffer env' l p).ret = true) ∧
    (GstSrt.gst_srt_server_sink_send_buffer env live []).live.map
        GstSrt.SRTClient.cid =
      (live.map GstSrt.SRTClient.cid).filter (fun x => x != c0) ∧
    GstSrt.removedCount
      (GstSrt.gst_srt_server_sink_send_buffer env live []).events c0 =
      GstSrt.countCid live c0 ∧
    (GstSrt.gst_srt_server_sink_send_buffer env live []).events.count
      (GstSrt.Ev.sockClosed c0) = GstSrt.countCid live c0 ∧
    (∀ x, (GstSrt.gst_srt_server_sink_send_buffer env live []).events.count
      (GstSrt.Ev.sendAttempt x) = GstSrt.countCid live x) ∧
    (∀ x, x ≠ c0 →
      GstSrt.removedCount
        (GstSrt.gst_srt_server_sink_send_buffer env live []).events x = 0) := by
  obtain ⟨h1, h2, h3, h4, h5⟩ :=
    GstSrt.processLive_single_failure env c0 hfail hothers live hcan
  have hres : GstSrt.gst_srt_server_sink_send_buffer env live [] =
      ⟨(GstSrt.processLive env live).1,
        (GstSrt.processLive env live).2 ++ [], true⟩ := rfl
  rw [hres]
  simp only [List.append_nil]
  exact ⟨fun _ _ _ => rfl, h1, h2, h3, h4, h5⟩

/-- C6 witness: of three live clients, only the one whose send fails (id 1)
is evicted; both others are sent to and survive, and the cycle reports
success. -/
theorem c6_send_failure_isolated_witness :
    (GstSrt.gst_srt_server_sink_send_buffer
      ⟨fun _ => 0, fun x => x != 1, fun _ => true⟩
      [⟨0, 0⟩, ⟨1, 0⟩, ⟨2, 0⟩] []).ret = true ∧
    (GstSrt.gst_srt_server_sink_send_buffer
      ⟨fun _ => 0, fun x => x != 1, fun _ => true⟩
      [⟨0, 0⟩, ⟨1, 0⟩, ⟨2, 0⟩] []).live.map GstSrt.SRTClient.cid =
      ([0, 1, 2].filter (fun x => x != 1)) ∧
    GstSrt.removedCount (GstSrt.gst_srt_server_sink_send_buffer
      ⟨fun _ => 0, fun x => x != 1, fun _ => true⟩
      [⟨0, 0⟩, ⟨1, 0⟩, ⟨2, 0⟩] []).events 1 = 1 ∧
    (GstSrt.gst_srt_server_sink_send_buffer
      ⟨fun _ => 0, fun x => x != 1, fun _ => true⟩
      [⟨0, 0⟩, ⟨1, 0⟩, ⟨2, 0⟩] []).events.count (GstSrt.Ev.sendAttempt 2)
      = 1 ∧
    GstSrt.removedCount (GstSrt.gst_srt_server_sink_send_buffer
      ⟨fun _ => 0, fun x => x != 1, fun _ => true⟩
      [⟨0, 0⟩, ⟨1, 0⟩, ⟨2, 0⟩] []).events 2 = 0 := by
  have h := c6_send_failure_isolated
    ⟨fun _ => 0, fun x => x != 1, fun _ => true⟩
    [⟨0, 0⟩, ⟨1, 0⟩, ⟨2, 0⟩] 1
    (by intro c _; rfl)
    (by decide) (by intro x hx; simp [bne_iff_ne, hx])
  refine ⟨h.1 _ _ _, ?_, ?_, ?_, h.2.2.2.2.2 2 (by decide)⟩
  · have := h.2.1
    simpa using this
  · have := h.2.2.1
    simpa using this
  · have := h.2.2.2.2.1 2
    simpa using this

/-- C7 counterexample: an iteration whose wait fails with `SRT_ETIMEOUT`
while the cancellation flag is clear does not loop back — it falls through
to an `srt_accept` attempt, contradicting the claim that a timeout returns
to the cancellation check without attempting an accept. -/
theorem c7_timeout_accept_counterexample :
    GstSrt.IterAct.acceptAttempt ∈
      GstSrt.thread_iter ⟨.errTimeout, false, false⟩ ∧
    GstSrt.IterAct.errorReport ∉
      GstSrt.thread_iter ⟨.errTimeout, false, false⟩ := by
  decide

/-- C7 (amended: a timeout is not treated as an error, but only with the
cancellation flag set does it loop back without an accept; with the flag
clear it falls through to an accept attempt, whose failure creates no
client record): non-timeout wait errors are reported and skipped without an
accept; timeouts never produce an error report; a timeout with the flag set
skips the accept; a timeout with the flag clear reaches the accept attempt,
which on failure adds and pushes nothing; and the thread runs exactly the
iterations before the first loop-head check that observes the cancellation
flag. -/
theorem c7_accept_loop_amended :
    (∀ env : GstSrt.AcceptIterEnv,
      (env.wait = .errOther →
        GstSrt.thread_iter env = [GstSrt.IterAct.errorReport]) ∧
      (env.wait = .errTimeout →
        GstSrt.IterAct.errorReport ∉ GstSrt.thread_iter env) ∧
      (env.wait = .errTimeout → env.cancelled_at_wait = true →
        GstSrt.thread_iter env = []) ∧
      (env.wait = .errTimeout → env.cancelled_at_wait = false →
        GstSrt.IterAct.acceptAttempt ∈ GstSrt.thread_iter env ∧
        (env.accept_ok = false →
          GstSrt.IterAct.clientAdded ∉ GstSrt.thread_iter env ∧
          GstSrt.IterAct.pushedPending ∉ GstSrt.thread_iter env))) ∧
    (∀ envs : List GstSrt.ThreadEnv,
      GstSrt.thread_func envs =
        (envs.takeWhile (fun e => !e.cancelled)).flatMap
          (fun e => GstSrt.thread_iter e.iter)) := by
  constructor
  · intro env
    refine ⟨fun hw => ?_, fun hw => ?_, fun hw hc => ?_, fun hw hc => ?_⟩
    · simp [GstSrt.thread_iter, hw]
    · rcases h : env.cancelled_at_wait <;>
        rcases ha : env.accept_ok <;>
        simp [GstSrt.thread_iter, GstSrt.acceptPart, hw, h, ha]
    · simp [GstSrt.thread_iter, hw, hc]
    · rcases ha : env.accept_ok <;>
        simp [GstSrt.thread_iter, GstSrt.acceptPart, hw, hc, ha]
  · intro envs
    induction envs with
    | nil => rfl
    | cons e rest ih =>
        rcases h : e.cancelled <;>
          simp [GstSrt.thread_func, List.takeWhile, h, ih]

/-- C7 witness: a non-timeout wait error is reported and skipped; the loop
stops at the first cancelled check, having run the earlier iteration. -/
theorem c7_accept_loop_amended_witness :
    GstSrt.thread_iter ⟨.errOther, false, true⟩ =
      [GstSrt.IterAct.errorReport] ∧
    GstSrt.thread_iter ⟨.errTimeout, true, true⟩ = [] ∧
    GstSrt.IterAct.acceptAttempt ∈
      GstSrt.thread_iter ⟨.errTimeout, false, true⟩ ∧
    GstSrt.thread_func
        [⟨false, ⟨.errOther, false, true⟩⟩, ⟨true, ⟨.ready, false, true⟩⟩] =
      [GstSrt.IterAct.errorReport] := by
  refine ⟨(c7_accept_loop_amended.1 ⟨.errOther, false, true⟩).1 rfl,
    (c7_accept_loop_amended.1 ⟨.errTimeout, true, true⟩).2.2.1 rfl rfl,
    ((c7_accept_loop_amended.1 ⟨.errTimeout, false, true⟩).2.2.2 rfl rfl).1,
    ?_⟩
  rw [c7_accept_loop_amended.2]
  rfl
